import Mathlib

/-!
Verification of the Markloom ERP front-end derived-data computations.

The definitions below are a shallow embedding of the TypeScript source:
JavaScript numbers are modelled as exact rationals (`ℚ`), JavaScript `Map`
objects built from arrays of key/value pairs are modelled as lists searched
with last-binding-wins lookup, and handlers that alert-and-return are
modelled as `Except String` / `Option` values.
-/

namespace Markloom

/-- `POStatus` enum from `src/types.ts`. -/
inductive POStatus where
  | Draft
  | Ordered
  | Shipped
  | Received
  | Cancelled
  deriving DecidableEq, Repr

/-- `WorkOrderStatus` enum from `src/types.ts`. -/
inductive WorkOrderStatus where
  | Pending
  | InProgress
  | Completed
  | OnHold
  deriving DecidableEq, Repr

/-- `Material` interface from `src/types.ts`. -/
structure Material where
  materialCode : String
  description : String
  category : String
  unitOfMeasure : String
  costPerUnit : ℚ
  minOrderQuantity : ℚ
  deriving DecidableEq, Repr

/-- `InventoryItem` interface from `src/types.ts` (optional GRN/PO refs omitted:
they never enter a computation). -/
structure InventoryItem where
  materialCode : String
  quantityOnHand : ℚ
  minStockLevel : ℚ
  location : String
  deriving DecidableEq, Repr

/-- `PurchaseOrder` interface from `src/types.ts`. -/
structure PurchaseOrder where
  poNumber : String
  supplierId : String
  orderDate : String
  deliveryDate : String
  status : POStatus
  notes : Option String
  deriving DecidableEq, Repr

/-- `PurchaseOrderItem` interface from `src/types.ts` (`id` is optional: it is
assigned by the backend). -/
structure PurchaseOrderItem where
  id : Option Nat
  poNumber : String
  materialCode : String
  quantity : ℚ
  unitCost : ℚ
  deriving DecidableEq, Repr

/-- `WorkOrder` interface from `src/types.ts`. -/
structure WorkOrder where
  woNumber : String
  skuCode : String
  quantity : ℚ
  startDate : String
  endDate : String
  status : WorkOrderStatus
  deriving DecidableEq, Repr

/-- `BOM` interface from `src/types.ts`. -/
structure BOM where
  bomId : Nat
  skuCode : String
  styleCode : String
  materialCode : String
  consumptionPerGarment : ℚ
  wastagePercentage : ℚ
  deriving DecidableEq, Repr

/-- Lookup in `materialsMap = new Map(materials.map(m => [m.materialCode, m]))`
(`BOMBuilder.tsx:54`, `WorkOrders.tsx:62`, `PurchaseOrders.tsx:449`).  A JS
`Map` built from a key/value array keeps the last binding for a duplicated
key, hence the reversed search. -/
def materialsMapGet (materials : List Material) (code : String) : Option Material :=
  materials.reverse.find? (fun m => m.materialCode == code)

/-- Lookup in `inventoryMap = new Map(inventory.map(i => [i.materialCode, i]))`
(`WorkOrders.tsx:63`). -/
def inventoryMapGet (inventory : List InventoryItem) (code : String) : Option InventoryItem :=
  inventory.reverse.find? (fun i => i.materialCode == code)

/-- The per-line cost expression of `BOMBuilder.tsx:131` and `:192`:
`consumptionPerGarment * costPerUnit * (1 + wastagePercentage / 100)`. -/
def bomLineCost (consumptionPerGarment costPerUnit wastagePercentage : ℚ) : ℚ :=
  consumptionPerGarment * costPerUnit * (1 + wastagePercentage / 100)

/-- The cost rendered for one row of the BOM table (`BOMBuilder.tsx:190-200`):
`material ? consumption * costPerUnit * (1 + wastage / 100) : 0`. -/
def renderedLineCost (materials : List Material) (item : BOM) : ℚ :=
  match materialsMapGet materials item.materialCode with
  | none => 0
  | some material =>
      bomLineCost item.consumptionPerGarment material.costPerUnit item.wastagePercentage

/-- `totalBomCost` from `BOMBuilder.tsx:127-134`: a `reduce` over the selected
BOM lines of the selected SKU that silently skips lines whose material is not in the map. -/
def totalBomCost (bomForSelectedSku : List BOM) (materials : List Material) : ℚ :=
  bomForSelectedSku.foldl (fun total bomItem =>
    match materialsMapGet materials bomItem.materialCode with
    | none => total
    | some material =>
        total + bomLineCost bomItem.consumptionPerGarment material.costPerUnit
          bomItem.wastagePercentage) 0

/-- `bomForSelectedSku` from `BOMBuilder.tsx:56`. -/
def bomForSelectedSku (boms : List BOM) (selectedSkuCode : String) : List BOM :=
  boms.filter (fun b => b.skuCode == selectedSkuCode)

/-! ### Work-order material requirements (`WorkOrders.tsx:267-281`) -/

/-- One row of the "Material Requirements" table of the work-order detail
modal.  `shortfall` is the raw difference computed at `WorkOrders.tsx:272`;
the clamping happens at render time (see `reportedShortfall`). -/
structure RequirementRow where
  materialCode : String
  requiredQty : ℚ
  onHandQty : ℚ
  shortfall : ℚ
  deriving DecidableEq, Repr

/-- The per-BOM-line computation of `WorkOrders.tsx:268-272`:
`requiredQty = consumptionPerGarment * quantity * (1 + wastagePercentage / 100)`,
`onHandQty = inventory?.quantityOnHand || 0` (on rationals `x || 0` is the
identity, with the falsy `0` mapped to `0`), `shortfall = requiredQty - onHandQty`. -/
def requirementRow (quantity : ℚ) (inventory : List InventoryItem) (bom : BOM) :
    RequirementRow :=
  let requiredQty := bom.consumptionPerGarment * quantity * (1 + bom.wastagePercentage / 100)
  let onHandQty :=
    match inventoryMapGet inventory bom.materialCode with
    | none => 0
    | some inv => inv.quantityOnHand
  { materialCode := bom.materialCode
    requiredQty := requiredQty
    onHandQty := onHandQty
    shortfall := requiredQty - onHandQty }

/-- The shortfall figure rendered at `WorkOrders.tsx:279-281`:
`shortfall > 0 ? shortfall.toFixed(2) : 0` (the zero branch renders the digit zero). -/
def reportedShortfall (row : RequirementRow) : ℚ :=
  if row.shortfall > 0 then row.shortfall else 0

/-- `workOrderBOMs` (`WorkOrders.tsx:180`) mapped through the requirements
computation of the table body (`WorkOrders.tsx:267-284`). -/
def materialRequirements (wo : WorkOrder) (boms : List BOM)
    (inventory : List InventoryItem) : List RequirementRow :=
  (boms.filter (fun b => b.skuCode == wo.skuCode)).map (requirementRow wo.quantity inventory)

/-! ### Purchase-order totals (`PurchaseOrders.tsx:684-691`, `:547`) -/

/-- `Map.get` on a string-keyed JS `Map` of rationals, embedded as an
association list with unique keys (see `mapSet`). -/
def mapGetQ (m : List (String × ℚ)) (k : String) : Option ℚ :=
  (m.find? (fun p => p.1 == k)).map (fun p => p.2)

/-- `Map.set`: replaces the binding in place when the key is present,
appends it otherwise (JS `Map` insertion-order semantics). -/
def mapSet (m : List (String × ℚ)) (k : String) (v : ℚ) : List (String × ℚ) :=
  if m.any (fun p => p.1 == k) then
    m.map (fun p => if p.1 == k then (k, v) else p)
  else
    m ++ [(k, v)]

/-- `poTotals` from `PurchaseOrders.tsx:684-691`: a fold over
`purchaseOrderItems` accumulating `quantity * unitCost` per PO number, with
`totals.get(item.poNumber) || 0` read-back (on rationals `x || 0` is `x` for
a present binding, `0` for an absent one, and missing-vs-zero coincide). -/
def poTotals (purchaseOrderItems : List PurchaseOrderItem) : List (String × ℚ) :=
  purchaseOrderItems.foldl (fun totals item =>
    let currentTotal := (mapGetQ totals item.poNumber).getD 0
    mapSet totals item.poNumber (currentTotal + item.quantity * item.unitCost)) []

/-- How every caller reads the totals map:
`(poTotals.get(po.poNumber) || 0)` (`PurchaseOrders.tsx:933`). -/
def poTotalsRead (purchaseOrderItems : List PurchaseOrderItem) (poNumber : String) : ℚ :=
  (mapGetQ (poTotals purchaseOrderItems) poNumber).getD 0

/-- `itemsForThisPO` (`PurchaseOrders.tsx:451`) reduced by `totalValue`
(`PurchaseOrders.tsx:547`): `reduce((sum, item) => sum + item.quantity * item.unitCost, 0)`. -/
def totalValue (poItems : List PurchaseOrderItem) (poNumber : String) : ℚ :=
  (poItems.filter (fun item => item.poNumber == poNumber)).foldl
    (fun sum item => sum + item.quantity * item.unitCost) 0

/-! ### Draft-only item mutation (`PurchaseOrders.tsx:445-628`) -/

/-- A request against the PO items manager modal: add a new line (the `Nat`
is the backend-assigned `po_item_id`) or remove an existing one. -/
inductive POItemMutation where
  | insertItem (newId : Nat) (materialCode : String) (quantity unitCost : ℚ)
  | deleteItem (poItemId : Nat)
  deriving DecidableEq, Repr

/-- The item-mutation behaviour of `POItemsManagerModal` as a whole:
the add form is rendered only while `po.status === POStatus.Draft`
(`PurchaseOrders.tsx:600-624` — a non-Draft PO instead shows the notice
quoted below), and the delete button is disabled for a non-Draft PO with the
title quoted below (`PurchaseOrders.tsx:574-583`).  On a Draft PO the
mutation runs `handleAddItem` (`:493-534`, which validates
`!newItem.materialCode || newItem.quantity <= 0`) or `handleDeleteItem`
(`:536-545`, which filters the deleted id out of the item list). -/
def poItemsManagerMutate (po : PurchaseOrder) (poItems : List PurchaseOrderItem) :
    POItemMutation → Except String (List PurchaseOrderItem)
  | .insertItem newId materialCode quantity unitCost =>
      if po.status != POStatus.Draft then
        .error ("Items can only be added to or removed from Purchase Orders with a Draft status. This is a read-only view.")
      else if materialCode == "" || decide (quantity ≤ 0) then
        .error ("Please select a material and enter a valid quantity.")
      else
        .ok (poItems ++ [{ id := some newId
                           poNumber := po.poNumber
                           materialCode := materialCode
                           quantity := quantity
                           unitCost := unitCost }])
  | .deleteItem poItemId =>
      if po.status != POStatus.Draft then
        .error ("Cannot delete items from a non-draft PO")
      else
        .ok (poItems.filter (fun item => item.id != some poItemId))

/-! ### Purchase-order status changes (`PurchaseOrders.tsx:984-1001`, `:785-828`) -/

/-- The `disabled` predicate of the status `<option>` elements in the PO form
(`PurchaseOrders.tsx:991`):
`itemsForCurrentPOInForm.length === 0 && s.value !== POStatus.Draft`. -/
def statusOptionDisabled (itemCount : Nat) (optionValue : POStatus) : Bool :=
  itemCount == 0 && !(optionValue == POStatus.Draft)

/-- Changing the status of a PO through the edit form: the target status must come
from an enabled `<option>` (`statusOptionDisabled` — note it never inspects
the current status), after which `handleFormSubmit`
(`PurchaseOrders.tsx:785-828`) persists the status held in the form unconditionally.
`itemCount` is `itemsForCurrentPOInForm.length` (`PurchaseOrders.tsx:701-705`). -/
def applyStatusChange (po : PurchaseOrder) (itemCount : Nat) (next : POStatus) :
    Option PurchaseOrder :=
  if statusOptionDisabled itemCount next then
    none
  else
    some { po with status := next }

/-- Modelled from the spec: the transition graph that section 4.4 of the spec
claims for `PurchaseOrder.status` — `Draft → {Ordered, Cancelled}`,
`Ordered → {Shipped, Cancelled}`, `Shipped → {Received}`, `Received` and
`Cancelled` terminal.  This definition follows the wording of the spec and is the
refinement target the code is compared against (the source has no such
graph). -/
def specPOTransition : POStatus → POStatus → Bool
  | .Draft, .Ordered => true
  | .Draft, .Cancelled => true
  | .Ordered, .Shipped => true
  | .Ordered, .Cancelled => true
  | .Shipped, .Received => true
  | _, _ => false

/-! ### Handler input validation (`BOMBuilder.tsx:82-85`, `WorkOrders.tsx:95-98`,
`PurchaseOrders.tsx:495-498`) -/

/-- The precondition check of `handleAddItemToBOM` (`BOMBuilder.tsx:82-85`):
the handler proceeds to build `bomToInsert` and call persistence unless
`!selectedSkuCode || !newBomItem.materialCode || newBomItem.consumptionPerGarment <= 0`.
The wastage percentage is not inspected (hence the unused binder). -/
def handleAddItemToBOMAccepts (selectedSkuCode materialCode : String)
    (consumptionPerGarment _wastagePercentage : ℚ) : Bool :=
  !(selectedSkuCode == "" || materialCode == "" || decide (consumptionPerGarment ≤ 0))

/-- The payload built by `handleAddItemToBOM` when the check passes
(`BOMBuilder.tsx:94-100`): the entered values are inserted as-is. -/
def bomToInsert (skuCode styleCode materialCode : String)
    (consumptionPerGarment wastagePercentage : ℚ) : BOM :=
  { bomId := 0
    skuCode := skuCode
    styleCode := styleCode
    materialCode := materialCode
    consumptionPerGarment := consumptionPerGarment
    wastagePercentage := wastagePercentage }

/-- The precondition check of `handleCreateWorkOrder` (`WorkOrders.tsx:95-98`):
rejects `!skuCode || quantity <= 0 || !endDate`. -/
def handleCreateWorkOrderAccepts (skuCode : String) (quantity : ℚ) (endDate : String) : Bool :=
  !(skuCode == "" || decide (quantity ≤ 0) || endDate == "")

/-- The precondition check of `POItemsManagerModal.handleAddItem`
(`PurchaseOrders.tsx:495-498`): rejects `!materialCode || quantity <= 0`.
The unit cost is not inspected (hence the unused binder). -/
def handleAddItemAccepts (materialCode : String) (quantity _unitCost : ℚ) : Bool :=
  !(materialCode == "" || decide (quantity ≤ 0))

/-! ### Low-stock flag (`Inventory.tsx:190`, `Materials.tsx:266`) -/

/-- `isLowStock` from `Inventory.tsx:190`:
`item.quantityOnHand < item.minStockLevel`. -/
def isLowStock (item : InventoryItem) : Bool :=
  decide (item.quantityOnHand < item.minStockLevel)

/-- `lowStockItems` from `Materials.tsx:266`:
`inventory.filter(item => item.quantityOnHand < item.minStockLevel).length`. -/
def lowStockItems (inventory : List InventoryItem) : Nat :=
  (inventory.filter (fun item => decide (item.quantityOnHand < item.minStockLevel))).length

/-! ### Concrete fixtures used for instantiating the theorems -/

/-- A sample material: one metre of cotton at cost 4 per unit. -/
def exMaterial : Material :=
  { materialCode := ("M1"), description := ("Cotton"), category := ("Fabric")
    unitOfMeasure := ("m"), costPerUnit := 4, minOrderQuantity := 1 }

/-- A sample BOM line: consumption 1 per garment, wastage 5 percent. -/
def exBom : BOM :=
  { bomId := 1, skuCode := ("SKU1"), styleCode := ("ST1"), materialCode := ("M1")
    consumptionPerGarment := 1, wastagePercentage := 5 }

/-- A second sample BOM line for the same SKU, on a material absent from the
materials snapshot. -/
def exBom2 : BOM :=
  { bomId := 2, skuCode := ("SKU1"), styleCode := ("ST1"), materialCode := ("M2")
    consumptionPerGarment := 2, wastagePercentage := 0 }

/-- A sample inventory snapshot: 80 units of M1 on hand. -/
def exInv : List InventoryItem :=
  [{ materialCode := ("M1"), quantityOnHand := 80, minStockLevel := 10, location := ("WH") }]

/-- An inventory record whose on-hand quantity exactly equals its minimum
stock level. -/
def exEqItem : InventoryItem :=
  { materialCode := ("M1"), quantityOnHand := 10, minStockLevel := 10, location := ("WH") }

/-- A sample work order for 100 garments of SKU1. -/
def exWo : WorkOrder :=
  { woNumber := ("WO-1"), skuCode := ("SKU1"), quantity := 100
    startDate := ("2025-01-01"), endDate := ("2025-02-01"), status := WorkOrderStatus.Pending }

/-- A sample Draft purchase order. -/
def exPoDraft : PurchaseOrder :=
  { poNumber := ("PO-1"), supplierId := ("S1"), orderDate := ("2025-01-01")
    deliveryDate := ("2025-01-05"), status := POStatus.Draft, notes := none }

/-- A sample Ordered purchase order. -/
def exPoOrdered : PurchaseOrder :=
  { poNumber := ("PO-2"), supplierId := ("S1"), orderDate := ("2025-01-01")
    deliveryDate := ("2025-01-05"), status := POStatus.Ordered, notes := none }

/-- A sample Received purchase order. -/
def exPoReceived : PurchaseOrder :=
  { poNumber := ("PO-3"), supplierId := ("S1"), orderDate := ("2025-01-01")
    deliveryDate := ("2025-01-05"), status := POStatus.Received, notes := none }

/-- A sample PO line: 3 units at cost 10. -/
def exItem1 : PurchaseOrderItem :=
  { id := some 1, poNumber := ("PO-1"), materialCode := ("M1"), quantity := 3, unitCost := 10 }

/-- A second sample PO line on the same PO: 2 units at cost 25. -/
def exItem2 : PurchaseOrderItem :=
  { id := some 2, poNumber := ("PO-1"), materialCode := ("M2"), quantity := 2, unitCost := 25 }

/-! ### Helper lemmas -/

lemma requirementRow_shortfall (q : ℚ) (inv : List InventoryItem) (b : BOM) :
    (requirementRow q inv b).shortfall
      = (requirementRow q inv b).requiredQty - (requirementRow q inv b).onHandQty := rfl

lemma reportedShortfall_nonneg (row : RequirementRow) : 0 ≤ reportedShortfall row := by
  unfold reportedShortfall
  by_cases h : row.shortfall > 0
  · rw [if_pos h]
    exact le_of_lt h
  · rw [if_neg h]

lemma foldl_add_map {α : Type} (g : α → ℚ) :
    ∀ (l : List α) (a : ℚ), l.foldl (fun t x => t + g x) a = a + (l.map g).sum := by
  intro l
  induction l with
  | nil => intro a; simp
  | cons x xs ih =>
      intro a
      simp only [List.foldl_cons, List.map_cons, List.sum_cons]
      rw [ih, add_assoc]

lemma totalBomCost_eq_sum (lines : List BOM) (materials : List Material) :
    totalBomCost lines materials = (lines.map (renderedLineCost materials)).sum := by
  have h : ∀ (l : List BOM) (a : ℚ),
      l.foldl (fun total bomItem =>
        match materialsMapGet materials bomItem.materialCode with
        | none => total
        | some material =>
            total + bomLineCost bomItem.consumptionPerGarment material.costPerUnit
              bomItem.wastagePercentage) a
        = a + (l.map (renderedLineCost materials)).sum := by
    intro l
    induction l with
    | nil => intro a; simp
    | cons b bs ih =>
        intro a
        simp only [List.foldl_cons, List.map_cons, List.sum_cons]
        rw [ih]
        cases hm : materialsMapGet materials b.materialCode with
        | none => simp [renderedLineCost, hm]
        | some m => simp [renderedLineCost, hm, add_assoc]
  unfold totalBomCost
  rw [h]
  simp

lemma renderedLineCost_of_none {materials : List Material} {b : BOM}
    (hm : materialsMapGet materials b.materialCode = none) :
    renderedLineCost materials b = 0 := by
  simp [renderedLineCost, hm]

lemma sum_rendered_filter_known (lines : List BOM) (materials : List Material) :
    (lines.map (renderedLineCost materials)).sum
      = ((lines.filter (fun b => (materialsMapGet materials b.materialCode).isSome)).map
          (renderedLineCost materials)).sum := by
  induction lines with
  | nil => simp
  | cons b bs ih =>
      by_cases hb : (materialsMapGet materials b.materialCode).isSome
      · simp [List.filter_cons, hb, ih]
      · have hnone : materialsMapGet materials b.materialCode = none := by
          cases hm : materialsMapGet materials b.materialCode with
          | none => rfl
          | some m => rw [hm] at hb; simp at hb
        simp [List.filter_cons, hb, ih, renderedLineCost_of_none hnone]

lemma renderedLineCost_nonneg (materials : List Material) (b : BOM)
    (hc : 0 < b.consumptionPerGarment) (hw : 0 ≤ b.wastagePercentage)
    (hmats : ∀ m ∈ materials, 0 ≤ m.costPerUnit) :
    0 ≤ renderedLineCost materials b := by
  unfold renderedLineCost
  cases hfind : materialsMapGet materials b.materialCode with
  | none => exact le_refl 0
  | some m =>
      have hmem : m ∈ materials := by
        have hrev : m ∈ materials.reverse := List.mem_of_find?_eq_some hfind
        exact List.mem_reverse.mp hrev
      have h100 : (0:ℚ) ≤ b.wastagePercentage / 100 := by positivity
      have h1 : (0:ℚ) ≤ 1 + b.wastagePercentage / 100 := by linarith
      exact mul_nonneg (mul_nonneg hc.le (hmats m hmem)) h1

lemma find?_map_replace_ne (m : List (String × ℚ)) (k k' : String) (v : ℚ)
    (hne : k' ≠ k) :
    (m.map (fun p => if p.1 == k then (k, v) else p)).find? (fun p => p.1 == k')
      = m.find? (fun p => p.1 == k') := by
  induction m with
  | nil => rfl
  | cons p ps ih =>
      rw [List.map_cons]
      by_cases hp : p.1 = k
      · have hif : (if p.1 == k then (k, v) else p) = (k, v) := by simp [hp]
        rw [hif,
          List.find?_cons_of_neg _ (by simp; exact fun hcon => hne hcon.symm),
          List.find?_cons_of_neg _ (by simp [hp]; exact fun hcon => hne hcon.symm)]
        exact ih
      · have hif : (if p.1 == k then (k, v) else p) = p := by simp [hp]
        rw [hif]
        by_cases hp' : p.1 = k'
        · rw [List.find?_cons_of_pos _ (by simp [hp']),
            List.find?_cons_of_pos _ (by simp [hp'])]
        · rw [List.find?_cons_of_neg _ (by simp [hp']),
            List.find?_cons_of_neg _ (by simp [hp'])]
          exact ih

lemma find?_map_replace_self (m : List (String × ℚ)) (k : String) (v : ℚ)
    (hany : m.any (fun p => p.1 == k) = true) :
    (m.map (fun p => if p.1 == k then (k, v) else p)).find? (fun p => p.1 == k)
      = some (k, v) := by
  induction m with
  | nil => simp at hany
  | cons p ps ih =>
      rw [List.map_cons]
      by_cases hp : p.1 = k
      · have hif : (if p.1 == k then (k, v) else p) = (k, v) := by simp [hp]
        rw [hif, List.find?_cons_of_pos _ (by simp)]
      · have hif : (if p.1 == k then (k, v) else p) = p := by simp [hp]
        have htail : ps.any (fun p => p.1 == k) = true := by
          simp only [List.any_cons, Bool.or_eq_true] at hany
          rcases hany with hhead | htail
        -- the head case contradicts hp
          · exact absurd (by simpa using hhead) hp
          · exact htail
        rw [hif, List.find?_cons_of_neg _ (by simp [hp])]
        exact ih htail

lemma find?_append_last_self (m : List (String × ℚ)) (k : String) (v : ℚ)
    (hany : m.any (fun p => p.1 == k) = false) :
    (m ++ [(k, v)]).find? (fun p => p.1 == k) = some (k, v) := by
  induction m with
  | nil => simp
  | cons p ps ih =>
      simp only [List.any_cons, Bool.or_eq_false_iff] at hany
      obtain ⟨hp, htail⟩ := hany
      rw [List.cons_append, List.find?_cons_of_neg _ (by simp [hp])]
      exact ih htail

lemma find?_append_last_ne (m : List (String × ℚ)) (k k' : String) (v : ℚ)
    (hne : k' ≠ k) :
    (m ++ [(k, v)]).find? (fun p => p.1 == k') = m.find? (fun p => p.1 == k') := by
  induction m with
  | nil =>
      rw [List.nil_append,
        List.find?_cons_of_neg _ (by simp; exact fun hcon => hne hcon.symm)]
  | cons p ps ih =>
      rw [List.cons_append]
      by_cases hp : p.1 = k'
      · rw [List.find?_cons_of_pos _ (by simp [hp]),
          List.find?_cons_of_pos _ (by simp [hp])]
      · rw [List.find?_cons_of_neg _ (by simp [hp]),
          List.find?_cons_of_neg _ (by simp [hp])]
        exact ih

lemma mapGetQ_mapSet (m : List (String × ℚ)) (k k' : String) (v : ℚ) :
    mapGetQ (mapSet m k v) k' = if k' = k then some v else mapGetQ m k' := by
  unfold mapGetQ mapSet
  by_cases hk : k' = k
  · subst hk
    rw [if_pos rfl]
    by_cases hany : m.any (fun p => p.1 == k') = true
    · rw [if_pos hany, find?_map_replace_self m k' v hany]
      rfl
    · have hany' : m.any (fun p => p.1 == k') = false := by
        cases h : m.any (fun p => p.1 == k') with
        | true => exact absurd h hany
        | false => rfl
      rw [if_neg hany, find?_append_last_self m k' v hany']
      rfl
  · rw [if_neg hk]
    by_cases hany : m.any (fun p => p.1 == k) = true
    · rw [if_pos hany, find?_map_replace_ne m k k' v hk]
    · rw [if_neg hany, find?_append_last_ne m k k' v hk]

lemma poTotals_foldl_read :
    ∀ (items : List PurchaseOrderItem) (m : List (String × ℚ)) (k : String),
      (mapGetQ (items.foldl (fun totals item =>
          let currentTotal := (mapGetQ totals item.poNumber).getD 0
          mapSet totals item.poNumber (currentTotal + item.quantity * item.unitCost)) m) k).getD 0
        = (mapGetQ m k).getD 0
          + ((items.filter (fun i => i.poNumber == k)).map
              (fun i => i.quantity * i.unitCost)).sum := by
  intro items
  induction items with
  | nil => intro m k; simp
  | cons i is ih =>
      intro m k
      simp only [List.foldl_cons]
      rw [ih]
      by_cases hk : i.poNumber = k
      · subst hk
        rw [mapGetQ_mapSet m i.poNumber i.poNumber]
        simp [List.filter_cons, add_assoc]
      · have hk' : (i.poNumber == k) = false := by simp [hk]
        rw [mapGetQ_mapSet m i.poNumber k]
        have hne : ¬(k = i.poNumber) := fun hcon => hk hcon.symm
        simp [List.filter_cons, hk', hne]

lemma poTotals_foldl_isSome :
    ∀ (items : List PurchaseOrderItem) (m : List (String × ℚ)) (k : String),
      (mapGetQ (items.foldl (fun totals item =>
          let currentTotal := (mapGetQ totals item.poNumber).getD 0
          mapSet totals item.poNumber (currentTotal + item.quantity * item.unitCost)) m) k).isSome
        = ((mapGetQ m k).isSome || items.any (fun i => i.poNumber == k)) := by
  intro items
  induction items with
  | nil => intro m k; simp
  | cons i is ih =>
      intro m k
      simp only [List.foldl_cons]
      rw [ih]
      by_cases hk : i.poNumber = k
      · subst hk
        rw [mapGetQ_mapSet m i.poNumber i.poNumber]
        simp
      · have hk' : (i.poNumber == k) = false := by simp [hk]
        rw [mapGetQ_mapSet m i.poNumber k]
        have hne : ¬(k = i.poNumber) := fun hcon => hk hcon.symm
        simp [hk', hne]

lemma totalValue_eq_sum (items : List PurchaseOrderItem) (k : String) :
    totalValue items k
      = ((items.filter (fun i => i.poNumber == k)).map (fun i => i.quantity * i.unitCost)).sum := by
  unfold totalValue
  have h := foldl_add_map (fun i : PurchaseOrderItem => i.quantity * i.unitCost)
    (items.filter (fun item => item.poNumber == k)) 0
  simpa using h

lemma poTotalsRead_eq_totalValue (items : List PurchaseOrderItem) (k : String) :
    poTotalsRead items k = totalValue items k := by
  unfold poTotalsRead poTotals
  rw [poTotals_foldl_read items [] k, totalValue_eq_sum]
  simp [mapGetQ]

/-! ### Claim theorems -/

/-- C1: for every row of the material-requirements table of a work order, the
reported shortfall equals `max 0 (requiredQty - onHandQty)`; it is exactly `0`
whenever the on-hand quantity is at least the required quantity, and it is
never negative. -/
theorem reported_shortfall_clamped (wo : WorkOrder) (boms : List BOM)
    (inventory : List InventoryItem) (row : RequirementRow)
    (hrow : row ∈ materialRequirements wo boms inventory) :
    reportedShortfall row = max 0 (row.requiredQty - row.onHandQty) ∧
    (row.requiredQty ≤ row.onHandQty → reportedShortfall row = 0) ∧
    0 ≤ reportedShortfall row := by
  have hsf : row.shortfall = row.requiredQty - row.onHandQty := by
    obtain ⟨bom, _, hEq⟩ := List.mem_map.mp hrow
    rw [← hEq]
    exact requirementRow_shortfall wo.quantity inventory bom
  refine ⟨?_, ?_, reportedShortfall_nonneg row⟩
  · unfold reportedShortfall
    rw [hsf]
    rcases le_or_lt (row.requiredQty - row.onHandQty) 0 with hle | hlt
    · rw [if_neg (not_lt.mpr hle), max_eq_left hle]
    · rw [if_pos hlt, max_eq_right hlt.le]
  · intro h
    unfold reportedShortfall
    rw [hsf, if_neg (not_lt.mpr (sub_nonpos.mpr h))]

/-- Witness for C1: the work-order fixture (quantity 100, BOM consumption 1,
wastage 5, on hand 80) produces a row whose reported shortfall is the clamped
difference. -/
theorem reported_shortfall_clamped_witness :
    requirementRow exWo.quantity exInv exBom ∈ materialRequirements exWo [exBom] exInv ∧
    reportedShortfall (requirementRow exWo.quantity exInv exBom)
      = max 0 ((requirementRow exWo.quantity exInv exBom).requiredQty
          - (requirementRow exWo.quantity exInv exBom).onHandQty) := by
  have hmem : requirementRow exWo.quantity exInv exBom ∈ materialRequirements exWo [exBom] exInv := by
    simp [materialRequirements, exWo, exBom]
  exact ⟨hmem, (reported_shortfall_clamped exWo [exBom] exInv _ hmem).1⟩

/-- C4: for every BOM line whose material is found, the rendered line cost is
`consumptionPerGarment * costPerUnit * (1 + wastagePercentage / 100)`, and in
particular consumption 2.5, wastage 10 and cost 4 yield exactly 11. -/
theorem bom_line_cost_formula (materials : List Material) (item : BOM) (mat : Material)
    (hfind : materialsMapGet materials item.materialCode = some mat)
    (hc : 0 < item.consumptionPerGarment) (hw : 0 ≤ item.wastagePercentage)
    (hp : 0 ≤ mat.costPerUnit) :
    renderedLineCost materials item
      = item.consumptionPerGarment * mat.costPerUnit * (1 + item.wastagePercentage / 100) ∧
    bomLineCost 2.5 4 10 = 11 := by
  constructor
  · simp [renderedLineCost, hfind, bomLineCost]
  · norm_num [bomLineCost]

/-- Witness for C4: the fixture material (cost 4) found for the fixture BOM
line (consumption 1, wastage 5). -/
theorem bom_line_cost_formula_witness :
    materialsMapGet [exMaterial] exBom.materialCode = some exMaterial ∧
    0 < exBom.consumptionPerGarment ∧
    renderedLineCost [exMaterial] exBom
      = exBom.consumptionPerGarment * exMaterial.costPerUnit
          * (1 + exBom.wastagePercentage / 100) := by
  refine ⟨by rfl, by norm_num [exBom], ?_⟩
  exact (bom_line_cost_formula [exMaterial] exBom exMaterial (by rfl)
    (by norm_num [exBom]) (by norm_num [exBom]) (by norm_num [exMaterial])).1

/-- C5: `totalBomCost` equals the sum of rendered line costs over exactly the
lines whose material code is present in the materials map; a line with an
unknown material contributes `0` (silently skipped); the empty BOM costs `0`;
and under the stated preconditions the total is non-negative. -/
theorem total_bom_cost_characterization (lines : List BOM) (materials : List Material) :
    totalBomCost lines materials
      = ((lines.filter (fun b => (materialsMapGet materials b.materialCode).isSome)).map
          (renderedLineCost materials)).sum ∧
    (∀ b : BOM, materialsMapGet materials b.materialCode = none →
      renderedLineCost materials b = 0) ∧
    totalBomCost [] materials = 0 ∧
    ((∀ b ∈ lines, 0 < b.consumptionPerGarment ∧ 0 ≤ b.wastagePercentage) →
      (∀ m ∈ materials, 0 ≤ m.costPerUnit) →
      0 ≤ totalBomCost lines materials) := by
  refine ⟨?_, ?_, rfl, ?_⟩
  · rw [totalBomCost_eq_sum, sum_rendered_filter_known]
  · intro b hb
    exact renderedLineCost_of_none hb
  · intro hlines hmats
    rw [totalBomCost_eq_sum]
    apply List.sum_nonneg
    intro x hx
    obtain ⟨b, hb, hEq⟩ := List.mem_map.mp hx
    rw [← hEq]
    exact renderedLineCost_nonneg materials b (hlines b hb).1 (hlines b hb).2 hmats

/-- Witness for C5: a two-line BOM where the second line references an unknown
material; the preconditions hold and the total is non-negative. -/
theorem total_bom_cost_characterization_witness :
    (∀ b ∈ [exBom, exBom2], 0 < b.consumptionPerGarment ∧ 0 ≤ b.wastagePercentage) ∧
    (∀ m ∈ [exMaterial], 0 ≤ m.costPerUnit) ∧
    0 ≤ totalBomCost [exBom, exBom2] [exMaterial] := by
  have h1 : ∀ b ∈ [exBom, exBom2], 0 < b.consumptionPerGarment ∧ 0 ≤ b.wastagePercentage := by
    intro b hb
    simp only [List.mem_cons, List.mem_singleton, List.not_mem_nil, or_false] at hb
    rcases hb with hb | hb
    · subst hb
      constructor <;> norm_num [exBom]
    · subst hb
      constructor <;> norm_num [exBom2]
  have h2 : ∀ m ∈ [exMaterial], 0 ≤ m.costPerUnit := by
    intro m hm
    simp only [List.mem_singleton] at hm
    subst hm
    norm_num [exMaterial]
  exact ⟨h1, h2, (total_bom_cost_characterization [exBom, exBom2] [exMaterial]).2.2.2 h1 h2⟩

/-- C6: the required quantity of a requirements row is
`consumptionPerGarment * workOrderQuantity * (1 + wastagePercentage / 100)`,
a material absent from the inventory snapshot is treated as on hand `0`, and
the worked example (quantity 100, consumption 1, wastage 5, on hand 80) gives
required 105 and shortfall 25. -/
theorem requirement_row_formula (quantity : ℚ) (inventory : List InventoryItem) (bom : BOM) :
    (requirementRow quantity inventory bom).requiredQty
      = bom.consumptionPerGarment * quantity * (1 + bom.wastagePercentage / 100) ∧
    (inventoryMapGet inventory bom.materialCode = none →
      (requirementRow quantity inventory bom).onHandQty = 0) ∧
    (∀ inv : InventoryItem, inventoryMapGet inventory bom.materialCode = some inv →
      (requirementRow quantity inventory bom).onHandQty = inv.quantityOnHand) ∧
    (requirementRow exWo.quantity exInv exBom).requiredQty = 105 ∧
    (requirementRow exWo.quantity exInv exBom).shortfall = 25 ∧
    reportedShortfall (requirementRow exWo.quantity exInv exBom) = 25 := by
  refine ⟨rfl, ?_, ?_, ?_, ?_, ?_⟩
  · intro h
    simp [requirementRow, h]
  · intro inv h
    simp [requirementRow, h]
  · norm_num [requirementRow, inventoryMapGet, exWo, exInv, exBom]
  · norm_num [requirementRow, inventoryMapGet, exWo, exInv, exBom]
  · norm_num [reportedShortfall, requirementRow, inventoryMapGet, exWo, exInv, exBom]

/-- Witness for C6: the lookup hypotheses instantiated on the fixture
inventory (M1 present with 80 on hand, M2 absent). -/
theorem requirement_row_formula_witness :
    inventoryMapGet exInv exBom2.materialCode = none ∧
    (requirementRow 7 exInv exBom2).onHandQty = 0 := by
  refine ⟨by rfl, ?_⟩
  exact (requirement_row_formula 7 exInv exBom2).2.1 (by rfl)

/-- C2: a valid item mutation (non-empty material, positive quantity) on a
Draft PO succeeds with the new item list; on a PO in any other status every
item mutation is rejected with a descriptive error before any persistence, and
the item list is left untouched. -/
theorem draft_only_item_mutation (po : PurchaseOrder) (poItems : List PurchaseOrderItem)
    (newId : Nat) (materialCode : String) (quantity unitCost : ℚ)
    (hmc : materialCode ≠ "") (hq : 0 < quantity) :
    (po.status = POStatus.Draft →
      poItemsManagerMutate po poItems
          (POItemMutation.insertItem newId materialCode quantity unitCost)
        = Except.ok (poItems ++ [{ id := some newId, poNumber := po.poNumber, materialCode := materialCode, quantity := quantity, unitCost := unitCost }]) ∧
      ∀ pid : Nat, poItemsManagerMutate po poItems (POItemMutation.deleteItem pid)
        = Except.ok (poItems.filter (fun item => item.id != some pid))) ∧
    (po.status ≠ POStatus.Draft →
      ∀ act : POItemMutation, ∃ msg : String,
        poItemsManagerMutate po poItems act = Except.error msg) := by
  constructor
  · intro hs
    have hsb : (po.status != POStatus.Draft) = false := by simp [hs]
    constructor
    · have hmcb : (materialCode == "") = false := by simp [hmc]
      have hqb : decide (quantity ≤ 0) = false := by simp [not_le.mpr hq]
      simp [poItemsManagerMutate, hsb, hmcb, hqb]
    · intro pid
      simp [poItemsManagerMutate, hsb]
  · intro hs act
    have hsb : (po.status != POStatus.Draft) = true := by simp [hs]
    cases act with
    | insertItem nid mc q uc =>
        exact ⟨("Items can only be added to or removed from Purchase Orders with a Draft status. This is a read-only view."), by simp [poItemsManagerMutate, hsb]⟩
    | deleteItem pid =>
        exact ⟨("Cannot delete items from a non-draft PO"), by simp [poItemsManagerMutate, hsb]⟩

/-- Witness for C2: adding 3 units of M1 to the Draft fixture PO succeeds, and
every mutation against the Ordered fixture PO is rejected with an error. -/
theorem draft_only_item_mutation_witness :
    ("M1" : String) ≠ "" ∧ (0 : ℚ) < 3 ∧
    poItemsManagerMutate exPoDraft [] (POItemMutation.insertItem 1 ("M1") 3 10)
      = Except.ok [{ id := some 1, poNumber := exPoDraft.poNumber, materialCode := ("M1"), quantity := 3, unitCost := 10 }] ∧
    (∀ act : POItemMutation, ∃ msg : String,
      poItemsManagerMutate exPoOrdered [] act = Except.error msg) := by
  refine ⟨by decide, by norm_num, ?_, ?_⟩
  · have h := (draft_only_item_mutation exPoDraft [] 1 ("M1") 3 10
      (by decide) (by norm_num)).1 (by rfl)
    simpa using h.1
  · exact (draft_only_item_mutation exPoOrdered [] 1 ("M1") 3 10
      (by decide) (by norm_num)).2 (by decide)

/-- C3 counterexample: editing the Received fixture PO while it owns one item,
the form enables the `Draft` option and the submit handler persists it — the
code permits the transition `Received → Draft`, which the claimed transition
graph forbids (Received is claimed terminal). -/
theorem po_status_transition_counterexample :
    applyStatusChange exPoReceived 1 POStatus.Draft
      = some { exPoReceived with status := POStatus.Draft } ∧
    specPOTransition POStatus.Received POStatus.Draft = false := by
  constructor
  · rfl
  · rfl

/-- C3 amended: the only status-change rule the code enforces is the item-count
gate: a status option is selectable iff it is `Draft` or the PO owns at least
one item.  In particular an empty PO can never be moved off `Draft`, but no
transition graph is enforced — any status (including `Received` and
`Cancelled`) can be changed to any other as long as the PO owns an item. -/
theorem po_status_change_characterization (po : PurchaseOrder) (itemCount : Nat)
    (next : POStatus) :
    ((applyStatusChange po itemCount next).isSome
      ↔ (next = POStatus.Draft ∨ itemCount ≠ 0)) ∧
    (applyStatusChange po itemCount next = none ∨
      applyStatusChange po itemCount next = some { po with status := next }) ∧
    (itemCount = 0 → next ≠ POStatus.Draft → applyStatusChange po itemCount next = none) := by
  refine ⟨?_, ?_, ?_⟩
  · by_cases h0 : itemCount = 0
    · by_cases hn : next = POStatus.Draft
      · simp [applyStatusChange, statusOptionDisabled, h0, hn]
      · simp [applyStatusChange, statusOptionDisabled, h0, hn]
    · simp [applyStatusChange, statusOptionDisabled, h0]
  · unfold applyStatusChange
    by_cases hd : statusOptionDisabled itemCount next = true
    · left
      simp [hd]
    · right
      simp only [Bool.not_eq_true] at hd
      simp [hd]
  · intro h0 hn
    simp [applyStatusChange, statusOptionDisabled, h0, hn]

/-- Witness for C3 (amended): an empty PO cannot be promoted to `Ordered`. -/
theorem po_status_change_characterization_witness :
    (0 = 0) ∧ POStatus.Ordered ≠ POStatus.Draft ∧
    applyStatusChange exPoDraft 0 POStatus.Ordered = none := by
  refine ⟨rfl, by decide, ?_⟩
  exact (po_status_change_characterization exPoDraft 0 POStatus.Ordered).2.2 rfl (by decide)

/-- C7: `poTotals` maps each PO number occurring in the item list to the sum
of `quantity * unitCost` over its items (which is exactly `totalValue`), a PO
number with no items is absent from the map and read back as `0` by the
`get(..) || 0` callers, and the read-back totals are additive over
concatenation of disjoint item lists. -/
theorem po_totals_characterization (items : List PurchaseOrderItem) (k : String) :
    (items.any (fun i => i.poNumber == k) = true →
      mapGetQ (poTotals items) k = some (totalValue items k)) ∧
    (items.any (fun i => i.poNumber == k) = false →
      mapGetQ (poTotals items) k = none) ∧
    poTotalsRead items k = totalValue items k ∧
    (∀ xs ys : List PurchaseOrderItem, List.Disjoint xs ys →
      poTotalsRead (xs ++ ys) k = poTotalsRead xs k + poTotalsRead ys k) := by
  have hisome : (mapGetQ (poTotals items) k).isSome
      = items.any (fun i => i.poNumber == k) := by
    unfold poTotals
    rw [poTotals_foldl_isSome items [] k]
    simp [mapGetQ]
  refine ⟨?_, ?_, poTotalsRead_eq_totalValue items k, ?_⟩
  · intro hany
    have h1 : (mapGetQ (poTotals items) k).isSome = true := by rw [hisome, hany]
    cases hout : mapGetQ (poTotals items) k with
    | none => rw [hout] at h1; simp at h1
    | some x =>
        have hx : x = totalValue items k := by
          have hr := poTotalsRead_eq_totalValue items k
          unfold poTotalsRead at hr
          rw [hout] at hr
          simpa using hr
        rw [hx]
  · intro hany
    have h1 : (mapGetQ (poTotals items) k).isSome = false := by rw [hisome, hany]
    cases hout : mapGetQ (poTotals items) k with
    | none => rfl
    | some x => rw [hout] at h1; simp at h1
  · intro xs ys hdisj
    rw [poTotalsRead_eq_totalValue, poTotalsRead_eq_totalValue, poTotalsRead_eq_totalValue,
      totalValue_eq_sum, totalValue_eq_sum, totalValue_eq_sum,
      List.filter_append, List.map_append, List.sum_append]

/-- Witness for C7: the two fixture items on PO-1 (3 at 10, 2 at 25) appear in
the totals map with value 80 (the example of the spec), and the totals of the
two disjoint singleton lists add up. -/
theorem po_totals_characterization_witness :
    [exItem1, exItem2].any (fun i => i.poNumber == ("PO-1")) = true ∧
    mapGetQ (poTotals [exItem1, exItem2]) ("PO-1")
      = some (totalValue [exItem1, exItem2] ("PO-1")) ∧
    totalValue [exItem1, exItem2] ("PO-1") = 80 ∧
    List.Disjoint [exItem1] [exItem2] ∧
    poTotalsRead ([exItem1] ++ [exItem2]) ("PO-1")
      = poTotalsRead [exItem1] ("PO-1") + poTotalsRead [exItem2] ("PO-1") := by
  have hdisj : List.Disjoint [exItem1] [exItem2] := by
    intro a ha hb
    simp only [List.mem_singleton] at ha hb
    subst ha
    simp [exItem1, exItem2] at hb
  refine ⟨by rfl, ?_, ?_, hdisj, ?_⟩
  · exact (po_totals_characterization [exItem1, exItem2] ("PO-1")).1 (by rfl)
  · norm_num [totalValue, exItem1, exItem2]
  · exact (po_totals_characterization ([exItem1] ++ [exItem2]) ("PO-1")).2.2.2
      [exItem1] [exItem2] hdisj

/-- C8 counterexample: a BOM line with a malformed (negative) wastage
percentage of -50 passes the validation of `handleAddItemToBOM` (which checks
only the SKU, the material and the consumption sign), so the handler proceeds
to computation and persistence instead of rejecting it as the claim states. -/
theorem invalid_input_counterexample :
    handleAddItemToBOMAccepts ("SKU1") ("M1") 1 (-50) = true ∧ ((-50 : ℚ) < 0) := by
  constructor
  · rfl
  · norm_num

/-- C8 amended: the handlers reject non-positive quantities (BOM consumption,
work-order quantity, PO item quantity) before persistence and pass accepted
values through unclamped, but they never inspect the wastage percentage or the
unit cost, so negative values of those pass validation. -/
theorem handler_validation_characterization (skuCode materialCode endDate : String)
    (c w w' q uc : ℚ) :
    (c ≤ 0 → handleAddItemToBOMAccepts skuCode materialCode c w = false) ∧
    (q ≤ 0 → handleCreateWorkOrderAccepts skuCode q endDate = false) ∧
    (q ≤ 0 → handleAddItemAccepts materialCode q uc = false) ∧
    handleAddItemToBOMAccepts skuCode materialCode c w
      = handleAddItemToBOMAccepts skuCode materialCode c w' ∧
    (bomToInsert skuCode skuCode materialCode c w).wastagePercentage = w ∧
    (bomToInsert skuCode skuCode materialCode c w).consumptionPerGarment = c := by
  refine ⟨?_, ?_, ?_, rfl, rfl, rfl⟩
  · intro h
    simp [handleAddItemToBOMAccepts, h]
  · intro h
    simp [handleCreateWorkOrderAccepts, h]
  · intro h
    simp [handleAddItemAccepts, h]

/-- Witness for C8 (amended): zero quantities are rejected by all three
handlers. -/
theorem handler_validation_characterization_witness :
    ((0 : ℚ) ≤ 0) ∧
    handleAddItemToBOMAccepts ("SKU1") ("M1") 0 5 = false ∧
    handleCreateWorkOrderAccepts ("SKU1") 0 ("2025-01-01") = false ∧
    handleAddItemAccepts ("M1") 0 10 = false := by
  have h := handler_validation_characterization ("SKU1") ("M1") ("2025-01-01") 0 5 5 0 10
  exact ⟨le_refl 0, h.1 (le_refl 0), h.2.1 (le_refl 0), h.2.2.1 (le_refl 0)⟩

/-- C9: `totalBomCost` is invariant under permutation of the BOM lines. -/
theorem total_bom_cost_perm_invariant (l1 l2 : List BOM) (materials : List Material)
    (h : l1.Perm l2) :
    totalBomCost l1 materials = totalBomCost l2 materials := by
  rw [totalBomCost_eq_sum, totalBomCost_eq_sum]
  exact (h.map (renderedLineCost materials)).sum_eq

/-- Witness for C9: swapping the two fixture BOM lines leaves the total
unchanged. -/
theorem total_bom_cost_perm_invariant_witness :
    [exBom, exBom2].Perm [exBom2, exBom] ∧
    totalBomCost [exBom, exBom2] [exMaterial] = totalBomCost [exBom2, exBom] [exMaterial] := by
  have hperm : [exBom, exBom2].Perm [exBom2, exBom] := List.Perm.swap exBom2 exBom []
  exact ⟨hperm, total_bom_cost_perm_invariant [exBom, exBom2] [exBom2, exBom] [exMaterial] hperm⟩

/-- C10: an inventory item is flagged low-stock iff its quantity on hand is
strictly below its minimum stock level; equality is not flagged; and the
materials-dashboard count counts exactly the flagged items. -/
theorem low_stock_strictly_below (item : InventoryItem) (inventory : List InventoryItem) :
    (isLowStock item = true ↔ item.quantityOnHand < item.minStockLevel) ∧
    (item.quantityOnHand = item.minStockLevel → isLowStock item = false) ∧
    lowStockItems inventory = (inventory.filter (fun i => isLowStock i)).length := by
  refine ⟨?_, ?_, rfl⟩
  · simp [isLowStock]
  · intro h
    simp [isLowStock, h]

/-- Witness for C10: an item with quantity on hand equal to its minimum stock
level is not flagged. -/
theorem low_stock_strictly_below_witness :
    exEqItem.quantityOnHand = exEqItem.minStockLevel ∧ isLowStock exEqItem = false := by
  refine ⟨by norm_num [exEqItem], ?_⟩
  exact (low_stock_strictly_below exEqItem []).2.1 (by norm_num [exEqItem])

end Markloom
